import Mathlib

/-!
Verification of the client-side asynchronous resource cache described in
the repository's specification. The repository's source contains only the
callers of the cache (query registrations, mutation handlers, polling
configurations in `src/unnamed/part_003`, `src/unnamed/part_004`, and the
narrative documentation in `src/notes.md`); the cache implementation itself
is an external library and is not under `src/`. The cache operations below
are therefore modelled from the specification, in a discrete-event style:
time is an explicit `Nat` parameter, asynchronous fetch completion is an
explicit `resolveFetch`/`failFetch` event, and the single cooperative
execution context of the spec is reflected by plain sequential composition
of the operations.
-/

/-- Modelled from the spec: a scalar value inside an attribute-set segment
of a Key ("strings, numbers, or attribute sets with no function values"). -/
inductive Scalar where
  | str : String → Scalar
  | num : Int → Scalar
deriving DecidableEq, Repr

/-- Modelled from the spec: one segment of a Key — a string, a number, or
an attribute set (a finite list of named scalar attributes). -/
inductive Seg where
  | str : String → Seg
  | num : Int → Seg
  | attrs : List (String × Scalar) → Seg
deriving DecidableEq, Repr

/-- Modelled from the spec: a Key is "an ordered sequence of scalar or
plain-structured segments". -/
abbrev Key := List Seg

/-- Modelled from the spec: deep structural comparison of scalars. -/
def scalarEq : Scalar → Scalar → Bool
  | .str a, .str b => a == b
  | .num a, .num b => a == b
  | _, _ => false

/-- Modelled from the spec: deep structural comparison of attribute sets,
attribute by attribute, by value. -/
def attrListEq : List (String × Scalar) → List (String × Scalar) → Bool
  | [], [] => true
  | (na, va) :: as_, (nb, vb) :: bs => na == nb && scalarEq va vb && attrListEq as_ bs
  | _, _ => false

/-- Modelled from the spec: deep structural comparison of segments. -/
def segEq : Seg → Seg → Bool
  | .str a, .str b => a == b
  | .num a, .num b => a == b
  | .attrs a, .attrs b => attrListEq a b
  | _, _ => false

/-- Modelled from the spec: "Two keys are equal iff their segments are
deep-equal in order" — segmentwise deep comparison of two Keys. -/
def keyEq : Key → Key → Bool
  | [], [] => true
  | a :: as_, b :: bs => segEq a b && keyEq as_ bs
  | _, _ => false

/-- Modelled from the spec: "a key is considered a *prefix* of another if
its segments are a leading subsequence of the other's". `leadsKey g k` is
true when `g` is such a leading subsequence of `k`. -/
def leadsKey : Key → Key → Bool
  | [], _ => true
  | _ :: _, [] => false
  | a :: as_, b :: bs => segEq a b && leadsKey as_ bs

/-- Modelled from the spec: per-Entry status, "one of `idle`, `pending`,
`success`, `error`". -/
inductive Status where
  | idle
  | pending
  | success
  | error
deriving DecidableEq, Repr

/-- Modelled from the spec: default `gcTime`, "a fixed positive duration
(e.g. 5 minutes equivalent)", in milliseconds. -/
def defaultGcTime : Nat := 5 * 60 * 1000

/-- Modelled from the spec (§3): the cache's record for one Key. `data` is
the last successfully fetched value; `error` the last failure; `fetchedAt`
the timestamp of the last successful resolution; `inFlight` the handle
(identifier) of the currently executing fetch, used for deduplication and
supersession; `gcDeadline` the instant at which the running `gcTime`
countdown elapses, or absent when no countdown is running. -/
structure Entry (α : Type) where
  data : Option α
  error : Option String
  status : Status
  fetchedAt : Option Nat
  staleTime : Nat
  gcTime : Nat
  subscriberCount : Nat
  inFlight : Option Nat
  gcDeadline : Option Nat
deriving Repr, DecidableEq

/-- Modelled from the spec: the Cache Store — the map of Key → Entry,
together with model instrumentation: `fetchCount` counts every invocation
of the caller-supplied fetcher, and `nextFid` supplies fresh handles for
in-flight fetches. -/
structure Store (α : Type) where
  entries : Key → Option (Entry α)
  fetchCount : Nat
  nextFid : Nat

/-- Modelled from the spec: `get(key) -> Entry | absent`, structural
lookup that does not create. -/
def lookupEntry (st : Store α) (k : Key) : Option (Entry α) :=
  st.entries k

/-- Modelled from the spec: per-registration options `{staleTime, gcTime,
enabled}` of `ensure`; `staleTime` defaults to 0 (immediately stale). -/
structure EnsureOpts where
  staleTime : Nat := 0
  gcTime : Nat := defaultGcTime
  enabled : Bool := true
deriving Repr

/-- Modelled from the spec: a fresh Entry as created on first observation
of a Key (lazily), before any fetch. -/
def newEntry (opts : EnsureOpts) : Entry α :=
  { data := none, error := none, status := .idle, fetchedAt := none,
    staleTime := opts.staleTime, gcTime := opts.gcTime,
    subscriberCount := 0, inFlight := none, gcDeadline := none }

/-- Modelled from the spec: an Entry is fresh during the `staleTime`
window after `fetchedAt`; an Entry that never resolved is not fresh. -/
def isFresh (e : Entry α) (now : Nat) : Bool :=
  match e.fetchedAt with
  | none => false
  | some t => decide (now < t + e.staleTime)

/-- Replace (or create) the Entry stored at key `k`. Lookup at other keys
is untouched; keys equal to `k` under deep structural comparison address
the same slot. -/
def writeSlot (st : Store α) (k : Key) (oe : Option (Entry α)) : Store α :=
  { st with entries := fun kq => if keyEq kq k then oe else st.entries kq }

/-- Modelled from the spec: `ensure(key, fetcher, options)` — returns the
existing Entry or creates one and, if the Entry is stale or absent,
triggers a fetch; `enabled=false` suppresses fetch triggering entirely.
Fetch deduplication: "if `ensure` is called for a key that already has
`inFlight` set, the call attaches to the existing in-flight operation
rather than issuing a second fetch". Triggering a fetch increments the
fetcher-invocation counter and records a fresh in-flight handle. -/
def ensure (st : Store α) (k : Key) (opts : EnsureOpts) (now : Nat) : Store α :=
  match st.entries k with
  | none =>
      if opts.enabled then
        { (writeSlot st k (some { newEntry opts with
            status := .pending, inFlight := some st.nextFid })) with
          fetchCount := st.fetchCount + 1, nextFid := st.nextFid + 1 }
      else
        writeSlot st k (some (newEntry opts))
  | some e =>
      if e.inFlight.isSome then st
      else if opts.enabled = false then st
      else if isFresh e now then st
      else
        { (writeSlot st k (some { e with
            status := .pending, inFlight := some st.nextFid })) with
          fetchCount := st.fetchCount + 1, nextFid := st.nextFid + 1 }

/-- Modelled from the spec: a forced refetch of an existing Entry (the
refresh path used by invalidation of a subscribed Entry and by manual
refetch): a new fetch is initiated for the key even while a previous fetch
is still in flight; the new fetch's handle replaces the old one, so the
old fetch is superseded. -/
def forceFetch (st : Store α) (k : Key) : Store α :=
  match st.entries k with
  | none => st
  | some e =>
      { (writeSlot st k (some { e with
          status := .pending, inFlight := some st.nextFid })) with
        fetchCount := st.fetchCount + 1, nextFid := st.nextFid + 1 }

/-- Modelled from the spec: successful resolution of the fetch with handle
`fid`. The Cache Store applies the result only when `fid` is still the
Entry's current in-flight handle; a superseded resolution (the Entry's
`inFlight` no longer equals `fid`) is silently dropped — the store is left
completely unchanged and no error is recorded (AbortedBySupersession). -/
def resolveFetch (st : Store α) (k : Key) (fid : Nat) (v : α) (now : Nat) : Store α :=
  match st.entries k with
  | none => st
  | some e =>
      if e.inFlight = some fid then
        writeSlot st k (some { e with
          data := some v, error := none, status := .success,
          fetchedAt := some now, inFlight := none })
      else st

/-- Modelled from the spec: failed resolution of the fetch with handle
`fid` (after any configured retries are exhausted): sets `error` and
`status = error` but "does not clear prior `data`"; dropped when
superseded, exactly as a successful resolution is. -/
def failFetch (st : Store α) (k : Key) (fid : Nat) (err : String) : Store α :=
  match st.entries k with
  | none => st
  | some e =>
      if e.inFlight = some fid then
        writeSlot st k (some { e with
          error := some err, status := .error, inFlight := none })
      else st

/-- Modelled from the spec: marking one Entry stale — "clears effective
freshness without deleting data". -/
def markStale (e : Entry α) : Entry α :=
  { e with fetchedAt := none }

/-- Modelled from the spec: the matching rule of `invalidate`: "if `exact`
is set, only an identical Key matches; otherwise every Entry whose Key has
the given Key as a prefix matches (hierarchical invalidation)". -/
def keyMatches (given : Key) (exact : Bool) (k : Key) : Bool :=
  if exact then keyEq given k else leadsKey given k

/-- Modelled from the spec: `invalidate(key, {exact})` — marks every
matching Entry stale and leaves every other Entry untouched. -/
def invalidate (st : Store α) (given : Key) (exact : Bool) : Store α :=
  { st with entries := fun k =>
      match st.entries k with
      | none => none
      | some e => if keyMatches given exact k then some (markStale e) else some e }

/-- Modelled from the spec: `setData(key, value)` — writes data directly
without going through the fetcher; updates `fetchedAt`, clears `error`,
leaves `status` as `success` (creating the Entry when absent, as for
manual seeding). -/
def setData (st : Store α) (k : Key) (v : α) (now : Nat) : Store α :=
  match st.entries k with
  | none =>
      writeSlot st k (some { (newEntry {} : Entry α) with
        data := some v, status := .success, fetchedAt := some now })
  | some e =>
      writeSlot st k (some { e with
        data := some v, error := none, status := .success, fetchedAt := some now })

/-- Modelled from the spec: cancelQueries for a key, as awaited by the
mutation handlers in the source before they capture their snapshot — the
outstanding fetch for the key is cancelled by discarding its in-flight
handle, so its eventual resolution is ignored by the store. -/
def cancelFetches (st : Store α) (k : Key) : Store α :=
  match st.entries k with
  | none => st
  | some e => writeSlot st k (some { e with inFlight := none })

/-- Modelled from the spec (§4.2): `attach(key)` increments
`subscriberCount` on the corresponding Entry (creating it via the Cache
Store if absent); a re-attachment before a running `gcTime` countdown
elapses cancels the countdown. -/
def attach (st : Store α) (k : Key) (opts : EnsureOpts) : Store α :=
  match st.entries k with
  | none =>
      writeSlot st k (some { newEntry opts with subscriberCount := 1 })
  | some e =>
      writeSlot st k (some { e with
        subscriberCount := e.subscriberCount + 1, gcDeadline := none })

/-- Modelled from the spec (§4.2): `detach` decrements the count and, if
the count reaches zero, starts a `gcTime` countdown on that Entry (its
deadline is the current instant plus the Entry's `gcTime`). -/
def detach (st : Store α) (k : Key) (now : Nat) : Store α :=
  match st.entries k with
  | none => st
  | some e =>
      let c := e.subscriberCount - 1
      writeSlot st k (some { e with
        subscriberCount := c,
        gcDeadline := if c = 0 then some (now + e.gcTime) else e.gcDeadline })

/-- Modelled from the spec: garbage collection at instant `now`: an Entry
whose countdown deadline has been reached with `subscriberCount` still
zero is removed from the Cache Store; every other Entry survives. -/
def gcSweep (st : Store α) (now : Nat) : Store α :=
  { st with entries := fun k =>
      match st.entries k with
      | none => none
      | some e =>
          if e.subscriberCount = 0 &&
             (match e.gcDeadline with
              | some d => decide (d ≤ now)
              | none => false) then none
          else some e }

/-- Modelled from the spec (§4.4, steps 1–2 as sequenced by the mutation
handlers in the source): cancel the outstanding fetches for the affected
key and await them, capture the Entry snapshot, then apply the optimistic
change via `setData` (the optimistic value is computed from the current
data by `upd`). Returns the store together with the captured snapshot. -/
def mutateBegin (st : Store α) (k : Key) (upd : Option α → α) (now : Nat) :
    Store α × Option (Entry α) :=
  let st1 := cancelFetches st k
  let snap := st1.entries k
  (setData st1 k (upd (snap.bind Entry.data)) now, snap)

/-- Modelled from the spec (§4.4, steps 3–4): on success of the remote
write, discard the snapshot and invalidate the affected key so the next
read reconciles; on failure, restore the Entry to the captured snapshot
(exact rollback) and surface the error to the caller of `mutate`. -/
def mutateSettle (st : Store α) (k : Key) (snap : Option (Entry α))
    (result : Except String β) : Store α × Except String β :=
  match result with
  | .ok b => (invalidate st k false, .ok b)
  | .error err => (writeSlot st k snap, .error err)

/-- Modelled from the spec (§4.4): a full `mutate` with an
`onOptimisticUpdate` — optimistic write, remote write (whose outcome is
the external collaborator's result `result`), then settlement. -/
def mutate (st : Store α) (k : Key) (upd : Option α → α)
    (result : Except String β) (now : Nat) : Store α × Except String β :=
  let p := mutateBegin st k upd now
  mutateSettle p.1 k p.2 result

/-- Modelled from the spec: a bounded retry policy — attempt the fetch,
and on failure retry while attempts remain; only the final outcome is ever
surfaced to the store. `attempts i` is the outcome of the i-th invocation
of the caller-supplied fetcher. -/
def fetchWithRetry (attempts : Nat → Except String α) : Nat → Nat → Except String α
  | retries, i =>
    match attempts i, retries with
    | .ok v, _ => .ok v
    | .error e, 0 => .error e
    | .error _, r + 1 => fetchWithRetry attempts r (i + 1)

/-- Modelled from the spec: completion of a fetch whose attempts (with any
configured retries) produced the final `outcome`: exactly one store update
with that outcome. -/
def completeFetch (st : Store α) (k : Key) (fid : Nat)
    (outcome : Except String α) (now : Nat) : Store α :=
  match outcome with
  | .ok v => resolveFetch st k fid v now
  | .error err => failFetch st k fid err

/-- Modelled from the spec (§4.3): a data-dependent interval policy — a
function of the current data returning either a duration (continue
polling) or `false`, here `none` (stop). -/
abbrev IntervalPolicy (α : Type) := α → Option Nat

/-- Modelled from the spec (§4.3): the Refetch Scheduler's polling loop
with a data-dependent interval policy. `results` lists the values produced
by the successive fetches the scheduler issues; the returned number is the
total count of fetches the scheduler issues: after each fetch the policy
is applied to the fetched data, and polling stops as soon as the policy
returns `none` (otherwise the next fetch is scheduled after the returned
duration). -/
def pollFetches (policy : IntervalPolicy α) : List α → Nat
  | [] => 0
  | r :: rs =>
      1 + match policy r with
          | none => 0
          | some _ => pollFetches policy rs

/-- Iterated `ensure` for the same key, registration and instant: the
model of N concurrent `ensure(K)` calls issued within one cooperative
execution slice (no fetch can resolve between them). -/
def ensureIter (st : Store α) (k : Key) (opts : EnsureOpts) (now : Nat) : Nat → Store α
  | 0 => st
  | n + 1 => ensure (ensureIter st k opts now n) k opts now

/-- The data record fetched by the polling scenario of the spec: the
fetcher of key `["job"]` reports whether the job is done. -/
structure JobData where
  done : Bool
deriving DecidableEq, Repr

/-- Modelled from the spec: the polling policy of the scenario — `(data)
=> data.done ? false : 100ms`. -/
def jobPolicy : IntervalPolicy JobData :=
  fun d => if d.done then none else some 100

/- Concrete keys, entries and stores used to exercise the theorems below
on explicit inputs. -/

def kPosts : Key := [Seg.str "posts"]

def kPosts1 : Key := [Seg.str "posts", Seg.num 1]

def kPostsDone : Key := [Seg.str "posts", Seg.attrs [("status", Scalar.str "done")]]

def kUsers : Key := [Seg.str "users"]

def kCounter : Key := [Seg.str "counter"]

def kX : Key := [Seg.str "x"]

/-- A resolved Entry holding `d`, fetched at instant 0, fresh for 1000ms. -/
def demoEntry (d : Nat) : Entry Nat :=
  { data := some d, error := none, status := .success, fetchedAt := some 0,
    staleTime := 1000, gcTime := defaultGcTime, subscriberCount := 1,
    inFlight := none, gcDeadline := none }

/-- A store holding resolved entries for `["posts"]`, `["posts", 1]`,
`["posts", {status:"done"}]` and `["users"]`. -/
def demoStore : Store Nat :=
  { entries := fun k =>
      if keyEq k kPosts then some (demoEntry 1)
      else if keyEq k kPosts1 then some (demoEntry 2)
      else if keyEq k kPostsDone then some (demoEntry 3)
      else if keyEq k kUsers then some (demoEntry 4)
      else none,
    fetchCount := 0, nextFid := 0 }

/-- The empty store: no entries, no fetches issued yet. -/
def emptyStore : Store Nat :=
  { entries := fun _ => none, fetchCount := 0, nextFid := 0 }

/-- The `["counter"]` scenario Entry: registered with `staleTime=1000ms`,
resolved at t=0 with value 1, no fetch in flight. -/
def counterEntry : Entry Nat :=
  { data := some 1, error := none, status := .success, fetchedAt := some 0,
    staleTime := 1000, gcTime := defaultGcTime, subscriberCount := 1,
    inFlight := none, gcDeadline := none }

/-- The `["counter"]` scenario store after the t=0 fetch resolved. -/
def counterStore : Store Nat :=
  { entries := fun k => if keyEq k kCounter then some counterEntry else none,
    fetchCount := 1, nextFid := 1 }

/-- An Entry with a fetch currently in flight (handle 0). -/
def pendingEntry : Entry Nat :=
  { data := none, error := none, status := .pending, fetchedAt := none,
    staleTime := 0, gcTime := defaultGcTime, subscriberCount := 1,
    inFlight := some 0, gcDeadline := none }

/-- A store in which key `["x"]` has fetch 0 in flight. -/
def pendingStore : Store Nat :=
  { entries := fun k => if keyEq k kX then some pendingEntry else none,
    fetchCount := 1, nextFid := 1 }

/-- An Entry with previously fetched data 5 and a fetch (handle 3) in
flight — the refetch that is about to fail. -/
def failEntry : Entry Nat :=
  { data := some 5, error := none, status := .pending, fetchedAt := some 0,
    staleTime := 0, gcTime := defaultGcTime, subscriberCount := 1,
    inFlight := some 3, gcDeadline := none }

/-- A store in which key `["x"]` holds `failEntry`. -/
def failStore : Store Nat :=
  { entries := fun k => if keyEq k kX then some failEntry else none,
    fetchCount := 4, nextFid := 4 }

/-- A resolved Entry with one subscriber and `gcTime = 5000ms`. -/
def gcEntry : Entry Nat :=
  { data := some 8, error := none, status := .success, fetchedAt := some 0,
    staleTime := 0, gcTime := 5000, subscriberCount := 1,
    inFlight := none, gcDeadline := none }

/-- A store in which key `["x"]` holds `gcEntry`. -/
def gcStore : Store Nat :=
  { entries := fun k => if keyEq k kX then some gcEntry else none,
    fetchCount := 1, nextFid := 1 }

/-- A quiescent resolved Entry holding 10, the target of the mutation
scenario. -/
def mutEntry : Entry Nat :=
  { data := some 10, error := none, status := .success, fetchedAt := some 0,
    staleTime := 0, gcTime := defaultGcTime, subscriberCount := 1,
    inFlight := none, gcDeadline := none }

/-- A store in which key `["x"]` holds `mutEntry`. -/
def mutStore : Store Nat :=
  { entries := fun k => if keyEq k kX then some mutEntry else none,
    fetchCount := 1, nextFid := 1 }

/- Helper lemmas about the deep comparison functions and the store
primitives. -/

theorem scalarEq_iff (a b : Scalar) : scalarEq a b = true ↔ a = b := by
  cases a <;> cases b <;> simp [scalarEq]

theorem attrListEq_iff (a b : List (String × Scalar)) :
    attrListEq a b = true ↔ a = b := by
  induction a generalizing b with
  | nil => cases b <;> simp [attrListEq]
  | cons ha ta ih =>
    cases b with
    | nil => simp [attrListEq]
    | cons hb tb =>
      obtain ⟨na, va⟩ := ha
      obtain ⟨nb, vb⟩ := hb
      simp [attrListEq, ih, scalarEq_iff, and_assoc]

theorem segEq_iff (a b : Seg) : segEq a b = true ↔ a = b := by
  cases a <;> cases b <;> simp [segEq, attrListEq_iff]

theorem keyEq_iff (a b : Key) : keyEq a b = true ↔ a = b := by
  induction a generalizing b with
  | nil => cases b <;> simp [keyEq]
  | cons ha ta ih => cases b <;> simp [keyEq, segEq_iff, ih]

theorem keyEq_refl (a : Key) : keyEq a a = true := (keyEq_iff a a).mpr rfl

theorem lookupEntry_writeSlot_self (st : Store α) (k : Key) (oe : Option (Entry α)) :
    lookupEntry (writeSlot st k oe) k = oe := by
  simp [lookupEntry, writeSlot, keyEq_refl]

theorem lookupEntry_writeSlot_other (st : Store α) (k kq : Key) (oe : Option (Entry α))
    (h : keyEq kq k = false) :
    lookupEntry (writeSlot st k oe) kq = lookupEntry st kq := by
  simp [lookupEntry, writeSlot, h]

/-- C9: Key equality is structural and order-sensitive over segments: the
deep segmentwise comparison `keyEq` returns true exactly when the two
Keys' segment sequences are equal (as ordered sequences, attribute sets
compared by value — in this embedding there is no reference identity, so
equality is necessarily by value); consequently keys that compare equal
address the same cache Entry, and a store write at one key leaves the
Entry of any key that does not compare equal untouched. -/
theorem key_equality_structural :
    (∀ a b : Key, keyEq a b = true ↔ a = b)
    ∧ (∀ (α : Type) (st : Store α) (a b : Key), keyEq a b = true →
        lookupEntry st a = lookupEntry st b)
    ∧ (∀ (α : Type) (st : Store α) (k kq : Key) (oe : Option (Entry α)),
        keyEq kq k = false →
        lookupEntry (writeSlot st k oe) kq = lookupEntry st kq) := by
  refine ⟨keyEq_iff, ?_, ?_⟩
  · intro α st a b h
    rw [(keyEq_iff a b).mp h]
  · intro α st k kq oe h
    exact lookupEntry_writeSlot_other st k kq oe h

/-- C9 witness: the deep comparison identifies two structurally equal keys
containing an attribute-set segment, and a write at `["posts", 1]` does
not disturb the Entry addressed by `["users"]`. -/
theorem key_equality_structural_witness :
    kPostsDone = [Seg.str "posts", Seg.attrs [("status", Scalar.str "done")]]
    ∧ lookupEntry (writeSlot demoStore kPosts1 none) kUsers
        = lookupEntry demoStore kUsers :=
  ⟨(key_equality_structural.1 kPostsDone
      [Seg.str "posts", Seg.attrs [("status", Scalar.str "done")]]).mp (by decide),
   key_equality_structural.2.2 Nat demoStore kPosts1 kUsers none (by decide)⟩

/-- C2: `invalidate(key)` without `exact` marks stale exactly the Entries
whose Key has the given Key as a leading sequence of segments, and leaves
every other Entry untouched; with `exact` set, only the identical Key is
marked stale. Marking stale clears effective freshness (the Entry is never
fresh afterwards) without deleting data. Concretely, invalidating
`["posts"]` marks `["posts"]`, `["posts", 1]` and
`["posts", {status:"done"}]` stale but leaves `["users"]` unaffected, and
with `exact` only `["posts"]` itself is marked. -/
theorem invalidate_matches_by_leading_segments :
    (∀ (α : Type) (st : Store α) (given k : Key) (exact : Bool),
      lookupEntry (invalidate st given exact) k
        = (if keyMatches given exact k then (lookupEntry st k).map markStale
           else lookupEntry st k))
    ∧ (∀ given k : Key, keyMatches given false k = leadsKey given k)
    ∧ (∀ given k : Key, keyMatches given true k = keyEq given k)
    ∧ (∀ (α : Type) (e : Entry α), (markStale e).data = e.data)
    ∧ (∀ (α : Type) (e : Entry α) (now : Nat), isFresh (markStale e) now = false)
    ∧ lookupEntry (invalidate demoStore kPosts false) kPosts
        = some (markStale (demoEntry 1))
    ∧ lookupEntry (invalidate demoStore kPosts false) kPosts1
        = some (markStale (demoEntry 2))
    ∧ lookupEntry (invalidate demoStore kPosts false) kPostsDone
        = some (markStale (demoEntry 3))
    ∧ lookupEntry (invalidate demoStore kPosts false) kUsers
        = some (demoEntry 4)
    ∧ lookupEntry (invalidate demoStore kPosts true) kPosts
        = some (markStale (demoEntry 1))
    ∧ lookupEntry (invalidate demoStore kPosts true) kPosts1
        = some (demoEntry 2)
    ∧ lookupEntry (invalidate demoStore kPosts true) kPostsDone
        = some (demoEntry 3) := by
  refine ⟨?_, fun _ _ => rfl, fun _ _ => rfl, fun _ _ => rfl,
    fun α e now => rfl, ?_, ?_, ?_, ?_, ?_, ?_, ?_⟩
  · intro α st given k exact
    simp only [lookupEntry, invalidate]
    cases h : st.entries k with
    | none => cases keyMatches given exact k <;> simp
    | some e => cases hm : keyMatches given exact k <;> simp [hm]
  all_goals decide

theorem lookupEntry_ensure_absent (st : Store α) (k : Key) (opts : EnsureOpts)
    (now : Nat) (hl : lookupEntry st k = none) (he : opts.enabled = true) :
    lookupEntry (ensure st k opts now) k
      = some { newEntry opts with status := .pending, inFlight := some st.nextFid } := by
  simp only [lookupEntry] at hl
  simp [lookupEntry, ensure, hl, he, writeSlot, keyEq_refl]

theorem ensure_inFlight_noop (st : Store α) (k : Key) (opts : EnsureOpts)
    (now : Nat) (e : Entry α) (hl : lookupEntry st k = some e)
    (hf : e.inFlight.isSome = true) : ensure st k opts now = st := by
  simp only [lookupEntry] at hl
  simp [ensure, hl, hf]

/-- C1: fetch deduplication — if `ensure` is called for a key whose Entry
already has an in-flight fetch, the call attaches to that operation and
changes nothing (in particular it does not invoke the fetcher); and
starting from a key with no Entry, N ≥ 1 `ensure` calls issued within one
execution slice leave the store in exactly the state produced by the first
call — the fetcher is invoked exactly once, and every caller is attached
to the one in-flight handle recorded by that first call, so all resolve
from the same result. -/
theorem ensure_dedups_concurrent_calls (α : Type) (st : Store α) (k : Key)
    (opts : EnsureOpts) (now : Nat) :
    (∀ e : Entry α, lookupEntry st k = some e → e.inFlight.isSome = true →
      ensure st k opts now = st)
    ∧ (lookupEntry st k = none → opts.enabled = true →
        (∀ n : Nat, ensureIter st k opts now (n + 1) = ensure st k opts now)
        ∧ (ensure st k opts now).fetchCount = st.fetchCount + 1) := by
  constructor
  · intro e hl hf
    exact ensure_inFlight_noop st k opts now e hl hf
  · intro hl he
    constructor
    · intro n
      induction n with
      | zero => rfl
      | succ m ih =>
        show ensure (ensureIter st k opts now (m + 1)) k opts now = _
        rw [ih]
        exact ensure_inFlight_noop _ k opts now _
          (lookupEntry_ensure_absent st k opts now hl he) rfl
    · simp only [lookupEntry] at hl
      simp [ensure, hl, he]

/-- C1 witness: from the empty store, three `ensure(["posts"])` calls in
one slice produce the same store as one call, the second call on the
in-flight state is a no-op, and the fetcher has been invoked exactly
once. -/
theorem ensure_dedups_concurrent_calls_witness :
    ensureIter emptyStore kPosts {} 0 3 = ensure emptyStore kPosts {} 0
    ∧ ensure (ensure emptyStore kPosts {} 0) kPosts {} 0
        = ensure emptyStore kPosts {} 0
    ∧ (ensure emptyStore kPosts {} 0).fetchCount = 1 :=
  ⟨((ensure_dedups_concurrent_calls Nat emptyStore kPosts {} 0).2 rfl rfl).1 2,
   (ensure_dedups_concurrent_calls Nat (ensure emptyStore kPosts {} 0) kPosts {} 0).1
     { newEntry {} with status := .pending, inFlight := some 0 } rfl rfl,
   ((ensure_dedups_concurrent_calls Nat emptyStore kPosts {} 0).2 rfl rfl).2⟩

/-- C5: freshness window — for a key whose Entry resolved at `t0` with no
fetch in flight, `ensure` inside the `staleTime` window (`now < t0 +
staleTime`) changes nothing (no new fetch), while `ensure` at or after the
window's end invokes the fetcher exactly once; an Entry with `staleTime =
0` is stale at every instant from its resolution on; and the default
`staleTime` of a registration is 0. -/
theorem staleTime_controls_refetch (α : Type) (st : Store α) (k : Key)
    (e : Entry α) (opts : EnsureOpts) (t0 : Nat)
    (hl : lookupEntry st k = some e) (hf : e.inFlight = none)
    (ht : e.fetchedAt = some t0) (he : opts.enabled = true) :
    (∀ now : Nat, now < t0 + e.staleTime → ensure st k opts now = st)
    ∧ (∀ now : Nat, t0 + e.staleTime ≤ now →
        (ensure st k opts now).fetchCount = st.fetchCount + 1)
    ∧ (∀ now : Nat, e.staleTime = 0 → t0 ≤ now → isFresh e now = false)
    ∧ ({} : EnsureOpts).staleTime = 0 := by
  simp only [lookupEntry] at hl
  have hfresh : ∀ now : Nat, isFresh e now = decide (now < t0 + e.staleTime) := by
    intro now
    simp [isFresh, ht]
  refine ⟨?_, ?_, ?_, rfl⟩
  · intro now hnow
    simp [ensure, hl, hf, he, hfresh, hnow]
  · intro now hnow
    simp [ensure, hl, hf, he, hfresh, Nat.not_lt.mpr hnow]
  · intro now hs hnow
    simp [hfresh, hs]
    exact hnow

/-- C5 witness: the `["counter"]` scenario — `staleTime = 1000`, resolved
at t=0; `ensure` at t=500 leaves the store untouched, `ensure` at t=1500
brings the fetcher-invocation count from 1 to 2 (exactly one new fetch),
and `counterEntry` with `staleTime` forced to 0 is stale immediately. -/
theorem staleTime_controls_refetch_witness :
    ensure counterStore kCounter {} 500 = counterStore
    ∧ (ensure counterStore kCounter {} 1500).fetchCount = 2
    ∧ isFresh { counterEntry with staleTime := 0 } 0 = false :=
  ⟨(staleTime_controls_refetch Nat counterStore kCounter counterEntry {} 0
      rfl rfl rfl rfl).1 500 (by decide),
   (staleTime_controls_refetch Nat counterStore kCounter counterEntry {} 0
      rfl rfl rfl rfl).2.1 1500 (by decide),
   (staleTime_controls_refetch Nat
      (writeSlot counterStore kCounter (some { counterEntry with staleTime := 0 }))
      kCounter { counterEntry with staleTime := 0 } {} 0
      (by decide) rfl rfl rfl).2.2.1 0 rfl (Nat.le_refl 0)⟩

/-- C4: supersession — resolving a fetch whose handle is no longer the
Entry's current in-flight handle leaves the store completely unchanged
(silently dropped, never recorded as data or surfaced as an error); in
particular, after a newer fetch supersedes the in-flight fetch `f1`, the
late resolution of `f1` is discarded, while the resolution of the newer
fetch is the one whose value the store records. -/
theorem supersession_discards_old_result (α : Type) (st : Store α) (k : Key)
    (e : Entry α) (f1 : Nat)
    (hl : lookupEntry st k = some e) (_hf : e.inFlight = some f1)
    (hne : f1 ≠ st.nextFid) :
    (∀ (st2 : Store α) (e2 : Entry α) (fid : Nat) (v : α) (now : Nat),
      lookupEntry st2 k = some e2 → e2.inFlight ≠ some fid →
      resolveFetch st2 k fid v now = st2)
    ∧ (∀ (v : α) (now : Nat),
        resolveFetch (forceFetch st k) k f1 v now = forceFetch st k)
    ∧ (∀ (v2 : α) (now2 : Nat),
        (lookupEntry (resolveFetch (forceFetch st k) k st.nextFid v2 now2) k).bind
          Entry.data = some v2) := by
  simp only [lookupEntry] at hl
  have hdrop : ∀ (st2 : Store α) (e2 : Entry α) (fid : Nat) (v : α) (now : Nat),
      lookupEntry st2 k = some e2 → e2.inFlight ≠ some fid →
      resolveFetch st2 k fid v now = st2 := by
    intro st2 e2 fid v now hl2 hne2
    simp only [lookupEntry] at hl2
    simp [resolveFetch, hl2, hne2]
  have hforce : lookupEntry (forceFetch st k) k
      = some { e with status := .pending, inFlight := some st.nextFid } := by
    simp [lookupEntry, forceFetch, hl, writeSlot, keyEq_refl]
  refine ⟨hdrop, ?_, ?_⟩
  · intro v now
    refine hdrop (forceFetch st k) _ f1 v now hforce ?_
    simp
    exact fun h => hne h.symm
  · intro v2 now2
    simp only [lookupEntry] at hforce
    simp [resolveFetch, hforce, lookupEntry, writeSlot, keyEq_refl]

/-- C4 witness: key `["x"]` has fetch 0 in flight; a newer fetch (handle
1) is initiated; the late resolution of fetch 0 with value 7 changes
nothing, and the resolution of fetch 1 with value 42 is the value the
store records. -/
theorem supersession_discards_old_result_witness :
    resolveFetch (forceFetch pendingStore kX) kX 0 7 200
      = forceFetch pendingStore kX
    ∧ (lookupEntry (resolveFetch (forceFetch pendingStore kX) kX 1 42 150) kX).bind
        Entry.data = some 42 :=
  ⟨(supersession_discards_old_result Nat pendingStore kX pendingEntry 0
      rfl rfl (by decide)).2.1 7 200,
   (supersession_discards_old_result Nat pendingStore kX pendingEntry 0
      rfl rfl (by decide)).2.2 42 150⟩

theorem fetchWithRetry_error_all (attempts : Nat → Except String γ) :
    ∀ (retries i : Nat) (msg : String),
      fetchWithRetry attempts retries i = Except.error msg →
      ∀ j : Nat, j ≤ retries → ∃ m : String, attempts (i + j) = Except.error m := by
  intro retries
  induction retries with
  | zero =>
    intro i msg h j hj
    have hj0 : j = 0 := Nat.le_zero.mp hj
    subst hj0
    cases ha : attempts i with
    | ok v => simp [fetchWithRetry, ha] at h
    | error m => exact ⟨m, by simpa using ha⟩
  | succ r ih =>
    intro i msg h j hj
    cases ha : attempts i with
    | ok v => simp [fetchWithRetry, ha] at h
    | error m =>
      cases j with
      | zero => exact ⟨m, by simpa using ha⟩
      | succ jq =>
        have h2 : fetchWithRetry attempts r (i + 1) = Except.error msg := by
          simpa [fetchWithRetry, ha] using h
        obtain ⟨m2, hm2⟩ := ih (i + 1) msg h2 jq (by omega)
        refine ⟨m2, ?_⟩
        rw [show i + (jq + 1) = i + 1 + jq by omega]
        exact hm2

/-- A concrete fetcher whose every attempt fails. -/
def downAttempts : Nat → Except String Nat := fun _ => Except.error "down"

/-- C8: failure semantics — when the fetch with the Entry's current
in-flight handle fails, the Entry's `error` is set and its `status`
becomes `error`, while the previously fetched `data` field is left exactly
as it was; the store is updated exactly once, with the final outcome of
the retry loop; and a surfaced failure means every attempt allowed by the
bounded retry policy had already failed — the retries happened before the
failure was surfaced, never after. -/
theorem fetch_failure_preserves_data (α : Type) (st : Store α) (k : Key)
    (e : Entry α) (fid : Nat) (err : String)
    (hl : lookupEntry st k = some e) (hf : e.inFlight = some fid) :
    lookupEntry (failFetch st k fid err) k
      = some { e with error := some err, status := Status.error, inFlight := none }
    ∧ (lookupEntry (failFetch st k fid err) k).bind Entry.data = e.data
    ∧ (∀ now : Nat, completeFetch st k fid (Except.error err) now
        = failFetch st k fid err)
    ∧ (∀ (γ : Type) (attempts : Nat → Except String γ) (retries i : Nat)
        (msg : String),
        fetchWithRetry attempts retries i = Except.error msg →
        ∀ j : Nat, j ≤ retries → ∃ m : String, attempts (i + j) = Except.error m) := by
  simp only [lookupEntry] at hl
  have h1 : lookupEntry (failFetch st k fid err) k
      = some { e with error := some err, status := Status.error, inFlight := none } := by
    simp [lookupEntry, failFetch, hl, hf, writeSlot, keyEq_refl]
  refine ⟨h1, ?_, fun _ => rfl, fun γ => fetchWithRetry_error_all⟩
  rw [h1]
  rfl

/-- C8 witness: the failing refetch of `["x"]` (in-flight handle 3, prior
data 5) leaves `data = 5` while recording the error, the failure
completion is exactly the `failFetch` update, and a retry policy of 1
retry that surfaced an error had also failed on its second (retried)
attempt. -/
theorem fetch_failure_preserves_data_witness :
    (lookupEntry (failFetch failStore kX 3 "boom") kX).bind Entry.data = some 5
    ∧ lookupEntry (failFetch failStore kX 3 "boom") kX
        = some { failEntry with
            error := some "boom", status := Status.error, inFlight := none }
    ∧ completeFetch failStore kX 3 (Except.error "boom") 9
        = failFetch failStore kX 3 "boom"
    ∧ (∃ m : String, downAttempts (0 + 1) = Except.error m) :=
  ⟨(fetch_failure_preserves_data Nat failStore kX failEntry 3 "boom" rfl rfl).2.1,
   (fetch_failure_preserves_data Nat failStore kX failEntry 3 "boom" rfl rfl).1,
   (fetch_failure_preserves_data Nat failStore kX failEntry 3 "boom" rfl rfl).2.2.1 9,
   (fetch_failure_preserves_data Nat failStore kX failEntry 3 "boom" rfl rfl).2.2.2
     Nat downAttempts 1 0 "down" rfl 1 (by decide)⟩

/-- C6: GC timing — when the last subscriber of an Entry detaches at
instant `t0`, a `gcTime` countdown starts: a garbage-collection pass at
any instant from `t0 + gcTime` on evicts the Entry, while a pass strictly
before that deadline leaves it in place; if `attach` is called for the
same key before the Entry is collected, the countdown is cancelled and the
Entry survives every later pass; and an Entry with a positive
`subscriberCount` is never evicted by any pass, regardless of the
instant. -/
theorem gc_eviction_timing (α : Type) (st : Store α) (k : Key) (e : Entry α)
    (t0 : Nat) (opts : EnsureOpts)
    (hl : lookupEntry st k = some e) (hc : e.subscriberCount = 1) :
    (∀ now : Nat, t0 + e.gcTime ≤ now →
      lookupEntry (gcSweep (detach st k t0) now) k = none)
    ∧ (∀ now : Nat, now < t0 + e.gcTime →
        lookupEntry (gcSweep (detach st k t0) now) k
          = some { e with subscriberCount := 0, gcDeadline := some (t0 + e.gcTime) })
    ∧ (∀ now : Nat,
        lookupEntry (gcSweep (attach (detach st k t0) k opts) now) k
          = some { e with subscriberCount := 1, gcDeadline := none })
    ∧ (∀ (st2 : Store α) (e2 : Entry α) (now : Nat),
        lookupEntry st2 k = some e2 → 0 < e2.subscriberCount →
        lookupEntry (gcSweep st2 now) k = some e2) := by
  simp only [lookupEntry] at hl
  have hdet : (detach st k t0).entries k
      = some { e with subscriberCount := 0, gcDeadline := some (t0 + e.gcTime) } := by
    simp [detach, hl, hc, writeSlot, keyEq_refl]
  have hatt : (attach (detach st k t0) k opts).entries k
      = some { e with subscriberCount := 1, gcDeadline := none } := by
    simp [attach, hdet, writeSlot, keyEq_refl]
  refine ⟨?_, ?_, ?_, ?_⟩
  · intro now hnow
    simp [gcSweep, lookupEntry, hdet, hnow]
  · intro now hnow
    simp [gcSweep, lookupEntry, hdet, Nat.not_le.mpr hnow]
  · intro now
    simp [gcSweep, lookupEntry, hatt]
  · intro st2 e2 now hl2 hc2
    simp only [lookupEntry] at hl2
    simp [gcSweep, lookupEntry, hl2, Nat.pos_iff_ne_zero.mp hc2]

/-- C6 witness: `["x"]` has one subscriber and `gcTime = 5000`; after the
detach at t=100, the pass at t=5100 evicts the Entry, the pass at t=5099
does not, a re-attach cancels the countdown so even a pass at t=999999
keeps the Entry, and a pass over the still-subscribed store never evicts
it. -/
theorem gc_eviction_timing_witness :
    lookupEntry (gcSweep (detach gcStore kX 100) 5100) kX = none
    ∧ lookupEntry (gcSweep (detach gcStore kX 100) 5099) kX
        = some { gcEntry with subscriberCount := 0, gcDeadline := some 5100 }
    ∧ lookupEntry (gcSweep (attach (detach gcStore kX 100) kX {}) 999999) kX
        = some { gcEntry with subscriberCount := 1, gcDeadline := none }
    ∧ lookupEntry (gcSweep gcStore 777) kX = some gcEntry :=
  ⟨(gc_eviction_timing Nat gcStore kX gcEntry 100 {} rfl rfl).1 5100 (by decide),
   (gc_eviction_timing Nat gcStore kX gcEntry 100 {} rfl rfl).2.1 5099 (by decide),
   (gc_eviction_timing Nat gcStore kX gcEntry 100 {} rfl rfl).2.2.1 999999,
   (gc_eviction_timing Nat gcStore kX gcEntry 100 {} rfl rfl).2.2.2 gcStore gcEntry
     777 rfl (by decide)⟩

theorem lookupEntry_cancelFetches (st : Store α) (k : Key) :
    lookupEntry (cancelFetches st k) k
      = (lookupEntry st k).map (fun e => { e with inFlight := none }) := by
  simp only [lookupEntry, cancelFetches]
  cases h : st.entries k with
  | none => simp [h]
  | some e => simp [h, writeSlot, keyEq_refl]

/-- C3: rollback law — a `mutate` whose `onOptimisticUpdate` wrote an
optimistic value and whose remote write then failed returns the failure to
the caller, and leaves the affected Entry exactly equal to the snapshot
captured before the optimistic write; in particular the Entry's `data`
equals its pre-mutation value, and whenever the optimistic value `x`
differed from the pre-mutation data, the final data is not `x`. -/
theorem mutation_rollback_exact (α β : Type) (st : Store α) (k : Key)
    (upd : Option α → α) (err : String) (now : Nat) :
    (mutate st k upd (Except.error err : Except String β) now).2 = Except.error err
    ∧ lookupEntry (mutate st k upd (Except.error err : Except String β) now).1 k
        = lookupEntry (cancelFetches st k) k
    ∧ (lookupEntry (mutate st k upd (Except.error err : Except String β) now).1 k).bind
        Entry.data = (lookupEntry st k).bind Entry.data
    ∧ (∀ x : α, (lookupEntry st k).bind Entry.data ≠ some x →
        (lookupEntry (mutate st k upd (Except.error err : Except String β) now).1 k).bind
          Entry.data ≠ some x) := by
  have h2 : lookupEntry (mutate st k upd (Except.error err : Except String β) now).1 k
      = lookupEntry (cancelFetches st k) k := by
    simp only [mutate, mutateBegin, mutateSettle]
    rw [lookupEntry_writeSlot_self]
    rfl
  have h3 : (lookupEntry (mutate st k upd (Except.error err : Except String β) now).1
      k).bind Entry.data = (lookupEntry st k).bind Entry.data := by
    rw [h2, lookupEntry_cancelFetches]
    cases lookupEntry st k <;> simp
  refine ⟨rfl, h2, h3, ?_⟩
  intro x hx
  rw [h3]
  exact hx

/-- C3 witness: the Entry of `["x"]` holds 10; a mutation optimistically
writes 99 and its remote write fails with "fail"; the error is returned to
the caller, the final data is the pre-mutation 10, and it is not the
optimistic 99. -/
theorem mutation_rollback_exact_witness :
    (mutate mutStore kX (fun _ => 99) (Except.error "fail" : Except String Nat) 50).2
      = Except.error "fail"
    ∧ (lookupEntry (mutate mutStore kX (fun _ => 99)
        (Except.error "fail" : Except String Nat) 50).1 kX).bind Entry.data = some 10
    ∧ (lookupEntry (mutate mutStore kX (fun _ => 99)
        (Except.error "fail" : Except String Nat) 50).1 kX).bind Entry.data ≠ some 99 :=
  ⟨(mutation_rollback_exact Nat Nat mutStore kX (fun _ => 99) "fail" 50).1,
   (mutation_rollback_exact Nat Nat mutStore kX (fun _ => 99) "fail" 50).2.2.1,
   (mutation_rollback_exact Nat Nat mutStore kX (fun _ => 99) "fail" 50).2.2.2 99
     (by decide)⟩

/-- C10: before the optimistic write of a mutation, the outstanding fetch
for the affected key is cancelled and the snapshot is captured only
afterwards: the captured snapshot is the Entry with its in-flight handle
cleared (a quiescent Entry), and once the optimistic write is in place,
neither a successful nor a failed resolution of the fetch that was in
flight when the mutation started changes the store at all — so no such
fetch ever writes its result to the key between the optimistic write and
the mutation's settlement, and the data stays at the optimistic value
until settlement. -/
theorem cancel_before_snapshot (α : Type) (st : Store α) (k : Key) (e : Entry α)
    (fid : Nat) (upd : Option α → α) (now : Nat)
    (hl : lookupEntry st k = some e) (_hf : e.inFlight = some fid) :
    (mutateBegin st k upd now).2 = some { e with inFlight := none }
    ∧ (∀ (v : α) (now2 : Nat),
        resolveFetch (mutateBegin st k upd now).1 k fid v now2
          = (mutateBegin st k upd now).1)
    ∧ (∀ msg : String,
        failFetch (mutateBegin st k upd now).1 k fid msg
          = (mutateBegin st k upd now).1)
    ∧ (lookupEntry (mutateBegin st k upd now).1 k).bind Entry.data
        = some (upd e.data) := by
  simp only [lookupEntry] at hl
  have hcancel : (cancelFetches st k).entries k = some { e with inFlight := none } := by
    simp [cancelFetches, hl, writeSlot, keyEq_refl]
  have hsnap : (mutateBegin st k upd now).2 = some { e with inFlight := none } := by
    show (cancelFetches st k).entries k = _
    exact hcancel
  have hbegin : (mutateBegin st k upd now).1.entries k
      = some { e with
          data := some (upd e.data), error := none, status := .success,
          fetchedAt := some now, inFlight := none } := by
    simp [mutateBegin, setData, hcancel, writeSlot, keyEq_refl]
  refine ⟨hsnap, ?_, ?_, ?_⟩
  · intro v now2
    simp [resolveFetch, hbegin]
  · intro msg
    simp [failFetch, hbegin]
  · simp [lookupEntry, hbegin]

/-- C10 witness: key `["x"]` has fetch 0 in flight when a mutation begins
with optimistic value 5: the snapshot is the quiescent Entry, the late
success (value 7) and the late failure of fetch 0 both leave the store
unchanged, and the data in place is the optimistic 5. -/
theorem cancel_before_snapshot_witness :
    (mutateBegin pendingStore kX (fun _ => 5) 10).2
      = some { pendingEntry with inFlight := none }
    ∧ resolveFetch (mutateBegin pendingStore kX (fun _ => 5) 10).1 kX 0 7 20
        = (mutateBegin pendingStore kX (fun _ => 5) 10).1
    ∧ failFetch (mutateBegin pendingStore kX (fun _ => 5) 10).1 kX 0 "late"
        = (mutateBegin pendingStore kX (fun _ => 5) 10).1
    ∧ (lookupEntry (mutateBegin pendingStore kX (fun _ => 5) 10).1 kX).bind Entry.data
        = some 5 :=
  ⟨(cancel_before_snapshot Nat pendingStore kX pendingEntry 0 (fun _ => 5) 10
      rfl rfl).1,
   (cancel_before_snapshot Nat pendingStore kX pendingEntry 0 (fun _ => 5) 10
      rfl rfl).2.1 7 20,
   (cancel_before_snapshot Nat pendingStore kX pendingEntry 0 (fun _ => 5) 10
      rfl rfl).2.2.1 "late",
   (cancel_before_snapshot Nat pendingStore kX pendingEntry 0 (fun _ => 5) 10
      rfl rfl).2.2.2⟩

/-- C7: self-terminating polling — with a data-dependent interval policy,
the Refetch Scheduler stops issuing fetches as soon as the policy applied
to the fetched data returns `none` (the spec's `false`): if every earlier
result kept the policy returning a duration and the next result makes it
return `none`, the total number of fetches issued is the number of earlier
results plus one, whatever results would have followed; in particular,
with the policy `(data) => data.done ? false : 100ms` and a fetcher
producing `{done:false}`, `{done:false}`, `{done:true}`, exactly 3 fetches
are issued and none after, regardless of any further values the fetcher
would produce. -/
theorem polling_self_terminates :
    (∀ (γ : Type) (policy : IntervalPolicy γ) (pre : List γ) (r : γ) (rs : List γ),
      (∀ x ∈ pre, policy x ≠ none) → policy r = none →
      pollFetches policy (pre ++ r :: rs) = pre.length + 1)
    ∧ (∀ rs : List JobData,
        pollFetches jobPolicy ([⟨false⟩, ⟨false⟩, ⟨true⟩] ++ rs) = 3) := by
  constructor
  · intro γ policy pre r rs hpre hr
    induction pre with
    | nil => simp [pollFetches, hr]
    | cons x xs ih =>
      have hx : policy x ≠ none := hpre x (List.mem_cons_self x xs)
      cases hpx : policy x with
      | none => exact absurd hpx hx
      | some d =>
        have hrec := ih (fun y hy => hpre y (List.mem_cons_of_mem x hy))
        calc pollFetches policy ((x :: xs) ++ r :: rs)
            = 1 + pollFetches policy (xs ++ r :: rs) := by simp [pollFetches, hpx]
          _ = 1 + (xs.length + 1) := by rw [hrec]
          _ = (x :: xs).length + 1 := by simp only [List.length_cons]; omega
  · intro rs
    simp [pollFetches, jobPolicy]

/-- C7 witness: the `["job"]` scenario — the fetcher produces
`{done:false}`, `{done:false}`, `{done:true}` and would produce further
values after; exactly 3 fetches are issued; and the general part applied
to a one-`{done:false}` run stopping on `{done:true}` gives 2 fetches. -/
theorem polling_self_terminates_witness :
    pollFetches jobPolicy [⟨false⟩, ⟨false⟩, ⟨true⟩, ⟨false⟩, ⟨true⟩] = 3
    ∧ pollFetches jobPolicy [⟨false⟩, ⟨true⟩] = 2 :=
  ⟨polling_self_terminates.2 [⟨false⟩, ⟨true⟩],
   polling_self_terminates.1 JobData jobPolicy [⟨false⟩] ⟨true⟩ []
     (by decide) (by decide)⟩
